import Mathlib

/-!
Shallow embedding of the benchmark core of `src/main.js` (3D web benchmark).

Machine numbers are modelled as exact rationals (`ℚ`).  The one place where
IEEE/JS-specific arithmetic matters — the division `frameCount / totalTime`
in `finishBenchmark`, which can produce `NaN`/`Infinity` — is modelled by an
explicit `JSNum` type with JS division and comparison semantics (`NaN`
compares false against everything).

Randomness (`Math.random()`) is modelled by an oracle `ℕ → ℚ` together with
the hypothesis that every draw lies in `[0, 1)`.

The frame loop (`animate`) is driven by the external `requestAnimationFrame`
scheduler; we model one frame-callback invocation as `frameStep` and count
the number of live scheduled callback chains in `loopChains` (a chain is
started by the synchronous `animate()` call in `startBenchmark`, persists
while a frame schedules its successor, and dies when a callback fires with
`running = false` or the time limit finishes the run).
-/

namespace Benchmark3D

/-- JS number relevant to `finishBenchmark`: a finite value, `NaN`, or an
infinity produced by division by zero. -/
inductive JSNum where
  | num (q : ℚ)
  | nan
  | posInf
  | negInf
deriving DecidableEq

/-- JS division `a / b` for numbers: `0/0 = NaN`, `x/0 = ±Infinity` for
`x ≠ 0`, exact quotient otherwise (mirrors `frameCount / totalTime` at
line 468 of `src/main.js`). -/
def jsDiv : JSNum → JSNum → JSNum
  | .num a, .num b =>
      if b = 0 then (if a = 0 then .nan else if 0 < a then .posInf else .negInf)
      else .num (a / b)
  | _, _ => .nan

/-- JS `<` comparison as a Bool: any comparison involving `NaN` is false. -/
def JSNum.ltb : JSNum → JSNum → Bool
  | .num a, .num b => decide (a < b)
  | .nan, _ => false
  | _, .nan => false
  | .negInf, .negInf => false
  | .negInf, _ => true
  | _, .negInf => false
  | .posInf, _ => false
  | .num _, .posInf => true

/-- The performance-label chain of `finishBenchmark` (lines 475-490 of
`src/main.js`): thresholds `>55`, `>40`, `>25`, `>15`, else lowest. -/
def perfLabel (avg : JSNum) : String :=
  if JSNum.ltb (.num 55) avg then "🔥 BEAST MODE"
  else if JSNum.ltb (.num 40) avg then "💪 HIGH-END"
  else if JSNum.ltb (.num 25) avg then "👍 MID-RANGE"
  else if JSNum.ltb (.num 15) avg then "😅 BUDGET"
  else "💀 TOASTER"

/-- The data `finishBenchmark` writes into the result box: average FPS,
performance label, and the elapsed duration. -/
structure Report where
  avgFPS : JSNum
  performanceLabel : String
  duration : ℚ
deriving DecidableEq

/-- `finishBenchmark`'s computation of the report from the accumulated
`frameCount` and `totalTime` (lines 466-505 of `src/main.js`); the division
is performed unconditionally. -/
def finishReport (frameCount : ℕ) (totalTime : ℚ) : Report :=
  let avg := jsDiv (.num (frameCount : ℚ)) (.num totalTime)
  { avgFPS := avg, performanceLabel := perfLabel avg, duration := totalTime }

/-- One entry of the `qualitySettings` table (lines 47-55 of `src/main.js`). -/
structure TierSettings where
  cubes : ℕ
  particles : ℕ
  lights : ℕ
  effects : Bool
  complexity : ℕ
deriving DecidableEq

/-- The `qualitySettings` object: the sole key is `"insane"`; indexing with
any other tier identifier yields `undefined` (modelled as `none`). -/
def qualitySettings (q : String) : Option TierSettings :=
  if q = "insane" then some ⟨2000, 20000, 25, true, 4⟩ else none

/-- Counting view of the scene collections of `src/main.js`: sizes of
`cubes`, the optional `particleSystem` (with its particle count), the
`explosionParticles` pool, the dynamic (non-ambient) entries of `lights`,
and whether the persistent ambient light is present in `lights`. -/
structure SceneCounts where
  cubes : ℕ
  particleCount : Option ℕ
  explosions : ℕ
  dynLights : ℕ
  ambient : Bool
deriving DecidableEq

/-- `clearScene` (lines 57-88): disposes all cubes, the particle system and
all explosions, removes every non-ambient light, keeps the ambient light. -/
def clearScene (s : SceneCounts) : SceneCounts :=
  { cubes := 0, particleCount := none, explosions := 0, dynLights := 0,
    ambient := s.ambient }

/-- Length of the `lights` array (ambient light included when present). -/
def lightsLen (s : SceneCounts) : ℕ :=
  (if s.ambient then 1 else 0) + s.dynLights

/-- `setupScene(quality)` (lines 196-289): clears the scene, adds the
ambient light when `lights` is empty, then reads
`qualitySettings[quality]`; on an unknown tier the later `settings.cubes`
access throws a TypeError (the scene having already been cleared and the
ambient light added), otherwise the tier's cubes, particle system and
dynamic lights are allocated. -/
def setupScene (quality : String) (sc : SceneCounts) : SceneCounts × Option String :=
  let s1 := clearScene sc
  let s2 := if lightsLen s1 = 0 then { s1 with ambient := true } else s1
  match qualitySettings quality with
  | none => (s2, some "TypeError: settings is undefined")
  | some st =>
      ({ s2 with cubes := st.cubes, particleCount := some st.particles,
                 dynLights := st.lights }, none)

/-- The module-level benchmark state of `src/main.js`: `running` flag,
`frameCount`, `totalTime` (seconds), `startTime` (ms), the scene
collections, the number of live scheduled frame-callback chains, and the
currently displayed report (`none` = result box hidden). -/
structure DriverState where
  running : Bool
  frameCount : ℕ
  totalTime : ℚ
  startTime : ℚ
  scene : SceneCounts
  loopChains : ℕ
  report : Option Report
deriving DecidableEq

/-- The state at page load: not running, empty scene, no report. -/
def initState : DriverState :=
  { running := false, frameCount := 0, totalTime := 0, startTime := 0,
    scene := { cubes := 0, particleCount := none, explosions := 0,
               dynLights := 0, ambient := false },
    loopChains := 0, report := none }

/-- `startBenchmark` (lines 357-387): unconditionally sets `running := true`,
resets the stats, hides any prior result, then calls `setupScene`.  When the
tier is unknown the TypeError thrown inside `setupScene` propagates before
`animate()` is reached, so no frame loop is scheduled but the flag and scene
mutations have already happened; otherwise the synchronous `animate()` call
starts one more frame-loop chain. -/
def startBenchmark (quality : String) (now : ℚ) (s : DriverState) :
    DriverState × Option String :=
  let s1 := { s with running := true, frameCount := 0, totalTime := 0,
                     startTime := now, report := none }
  match setupScene quality s1.scene with
  | (sc, some e) => ({ s1 with scene := sc }, some e)
  | (sc, none) => ({ s1 with scene := sc, loopChains := s1.loopChains + 1 }, none)

/-- `finishBenchmark` (lines 466-519): clears `running` and displays the
report computed from the accumulated `frameCount` and `totalTime`. -/
def finishBenchmark (s : DriverState) : DriverState :=
  { s with running := false,
           report := some (finishReport s.frameCount s.totalTime) }

/-- One invocation of the `animate` frame callback at clock reading `now`
(ms).  With `running = false` it returns immediately (its chain dies).
Otherwise it increments `frameCount`, recomputes
`totalTime = (now - startTime) / 1000`, and either schedules the next frame
(when `totalTime < 30`) or finishes the run. -/
def frameStep (now : ℚ) (s : DriverState) : DriverState :=
  if s.running = true then
    let s1 := { s with frameCount := s.frameCount + 1,
                       totalTime := (now - s.startTime) / 1000 }
    if (now - s.startTime) / 1000 < 30 then s1
    else finishBenchmark { s1 with loopChains := s1.loopChains - 1 }
  else { s with loopChains := s.loopChains - 1 }

/-- A sequence of frame-callback invocations at the given clock readings. -/
def runFrames (ts : List ℚ) (s : DriverState) : DriverState :=
  ts.foldl (fun st t => frameStep t st) s

/-- The `keydown` listener for Escape (lines 524-528): while running it
calls `finishBenchmark` immediately. -/
def escapeKey (s : DriverState) : DriverState :=
  if s.running = true then finishBenchmark s else s

/-- An explosion-spawn request.  `stoch r` is the per-cube per-frame draw in
`animate` (line 414): it spawns only when `r < 0.0001` and the pool holds
fewer than 5 effects.  `scripted b` is one of the delayed bursts scheduled
by `startBenchmark` (lines 370-384): it checks only the `running` flag and
calls `createExplosionEffect` (which pushes unconditionally). -/
inductive SpawnEvent where
  | stoch (r : ℚ)
  | scripted (running : Bool)
deriving DecidableEq

/-- Effect of one spawn request on the `explosionParticles` pool size. -/
def spawnStep (pool : ℕ) : SpawnEvent → ℕ
  | .stoch r => if r < 1 / 10000 ∧ pool < 5 then pool + 1 else pool
  | .scripted running => if running = true then pool + 1 else pool

/-- Pool size after a sequence of spawn requests from initial size `p`. -/
def runSpawns (p : ℕ) (es : List SpawnEvent) : ℕ :=
  es.foldl spawnStep p

/-- Whether a spawn request is a stochastic (cube-loop) one. -/
def SpawnEvent.isStoch : SpawnEvent → Bool
  | .stoch _ => true
  | .scripted _ => false

/-- A 3-component vector of exact rationals. -/
structure Vec3 where
  x : ℚ
  y : ℚ
  z : ℚ
deriving DecidableEq

/-- Euler position integration `p += v * dt` per axis. -/
def integrate (p v : Vec3) (dt : ℚ) : Vec3 :=
  ⟨p.x + v.x * dt, p.y + v.y * dt, p.z + v.z * dt⟩

/-- The per-particle body of `updateParticles` (lines 298-311 of
`src/main.js`), position/velocity part: integrate, then if any component's
absolute value exceeds 150, reset all three position components to
`(Math.random() - 0.5) * 50`; the velocity array is never written.
`rand` is the `Math.random()` oracle, `k` the index of its next draw. -/
def updateParticle (rand : ℕ → ℚ) (k : ℕ) (p v : Vec3) (dt : ℚ) : Vec3 × Vec3 :=
  if 150 < |(integrate p v dt).x| ∨ 150 < |(integrate p v dt).y| ∨
     150 < |(integrate p v dt).z| then
    (⟨(rand k - 1/2) * 50, (rand (k+1) - 1/2) * 50, (rand (k+2) - 1/2) * 50⟩, v)
  else (integrate p v dt, v)

/-- One pooled explosion: its fractional `life` and its particle
(position, velocity) pairs. -/
structure ExplosionEffect where
  life : ℚ
  parts : List (Vec3 × Vec3)
deriving DecidableEq

/-- The per-effect body of `updateExplosions` (lines 326-354):
`life -= dt * 0.02`; if the new life is `≤ 0` the effect is disposed and
removed (`none`); otherwise positions integrate by velocity and gravity
`0.5 * dt` is subtracted from each vertical velocity. -/
def stepExplosion (dt : ℚ) (e : ExplosionEffect) : Option ExplosionEffect :=
  if e.life - dt * (2 / 100) ≤ 0 then none
  else some { life := e.life - dt * (2 / 100),
              parts := e.parts.map (fun pv =>
                (integrate pv.1 pv.2 dt, ⟨pv.2.x, pv.2.y - (1/2) * dt, pv.2.z⟩)) }

/-- `updateExplosions(deltaTime)`: reverse-index iteration with
`splice`-on-removal acts on the pool as an order-preserving `filterMap`. -/
def updateExplosions (dt : ℚ) (pool : List ExplosionEffect) : List ExplosionEffect :=
  pool.filterMap (stepExplosion dt)

/-- The `cameraShake` record of `src/main.js` (line 43). -/
structure CameraShake where
  x : ℚ
  y : ℚ
  intensity : ℚ
deriving DecidableEq

/-- The camera-shake block of `animate` (lines 438-445): when
`intensity > 0`, draw random offsets bounded by the intensity, decay the
intensity by `* 0.95` (no clamping to zero anywhere), and displace the
camera; otherwise do nothing.  `r1, r2` are the two `Math.random()` draws. -/
def shakeStep (r1 r2 : ℚ) (sh : CameraShake) (cam : ℚ × ℚ) :
    CameraShake × (ℚ × ℚ) :=
  if 0 < sh.intensity then
    ( { x := (r1 - 1/2) * sh.intensity, y := (r2 - 1/2) * sh.intensity,
        intensity := sh.intensity * (95/100) },
      (cam.1 + (r1 - 1/2) * sh.intensity, cam.2 + (r2 - 1/2) * sh.intensity) )
  else (sh, cam)

/-- The shake state after `n` frames; the camera position is not fed back
into the shake state, so it is passed as a dummy.  `rs` supplies the two
random draws of frame `n`. -/
def iterShake (rs : ℕ → ℚ × ℚ) : ℕ → CameraShake → CameraShake
  | 0, sh => sh
  | n + 1, sh => (shakeStep (rs n).1 (rs n).2 (iterShake rs n sh) (0, 0)).1

/-! ## C1 — explosion pool concurrency cap -/

/-- C1 counterexample: the claim "the pool never exceeds the cap of 5 for
every interleaving of scripted and stochastic spawn requests" is false: five
successful stochastic spawns fill the pool to 5, after which a scripted
burst (guarded only by the `running` flag, not the cap) pushes a sixth
effect. -/
theorem c1_counterexample :
    5 < runSpawns 0
      [SpawnEvent.stoch 0, SpawnEvent.stoch 0, SpawnEvent.stoch 0,
       SpawnEvent.stoch 0, SpawnEvent.stoch 0, SpawnEvent.scripted true] := by
  have h : (0 : ℚ) < 1 / 10000 := by norm_num
  norm_num [runSpawns, spawnStep, List.foldl, h]

/-- C1 (amended): only the stochastic spawn requests check the concurrency
cap: for any sequence consisting solely of stochastic requests, a pool that
starts at or below 5 never exceeds 5 (requests arriving at the cap are
dropped silently); scripted bursts bypass the cap check. -/
theorem c1_stoch_spawns_respect_cap (es : List SpawnEvent) (p : ℕ)
    (hp : p ≤ 5) (hs : ∀ e ∈ es, e.isStoch = true) :
    runSpawns p es ≤ 5 := by
  induction es generalizing p with
  | nil => simpa [runSpawns] using hp
  | cons e es ih =>
      have hstep : spawnStep p e ≤ 5 := by
        cases e with
        | stoch r =>
            by_cases hc : r < 1 / 10000 ∧ p < 5
            · simp only [spawnStep, if_pos hc]; omega
            · simp only [spawnStep, if_neg hc]; exact hp
        | scripted b =>
            exact absurd (hs _ (List.mem_cons_self _ _)) (by simp [SpawnEvent.isStoch])
      have hrest : ∀ e' ∈ es, e'.isStoch = true :=
        fun e' he' => hs e' (List.mem_cons_of_mem _ he')
      simpa [runSpawns, List.foldl_cons] using ih (spawnStep p e) hstep hrest

/-- C1 witness: the amended cap theorem at a concrete stochastic trace. -/
theorem c1_stoch_spawns_respect_cap_witness :
    (0 : ℕ) ≤ 5 ∧ (∀ e ∈ [SpawnEvent.stoch 0], e.isStoch = true) ∧
    runSpawns 0 [SpawnEvent.stoch 0] ≤ 5 :=
  ⟨by decide, by decide,
   c1_stoch_spawns_respect_cap [SpawnEvent.stoch 0] 0 (by decide) (by decide)⟩

/-! ## C2 — classifier at elapsedSeconds = 0 -/

/-- C2 counterexample: the claim "the classifier does not divide by zero and
leaks no NaN into the report" is false at `frameCount = 0`,
`elapsedSeconds = 0`: the unguarded division yields `NaN`, which appears as
the report's average FPS. -/
theorem c2_counterexample :
    (finishReport 0 0).avgFPS = JSNum.nan := by
  decide

/-- C2 (amended): at `frameCount = 0`, `elapsedSeconds = 0` the classifier
raises no exception but performs the division unguarded: `avgFPS` is `NaN`
(JS `0/0`), which is leaked into the report, and every threshold comparison
against `NaN` is false so the lowest-tier label is produced; no sentinel or
indeterminate result exists. -/
theorem c2_zero_elapsed_nan_report :
    finishReport 0 0 =
      { avgFPS := JSNum.nan, performanceLabel := "💀 TOASTER", duration := 0 } := by
  decide

/-! ## C3 — unknown tier identifier -/

/-- C3 counterexample: the claim "on an unknown tier the run does not start
(the driver does not end up in the Running state)" is false: after
`startBenchmark` with the unknown tier `"ultra"`, the TypeError is surfaced
but the `running` flag has already been set to `true`. -/
theorem c3_counterexample :
    (startBenchmark "ultra" 0 initState).1.running = true ∧
    (startBenchmark "ultra" 0 initState).2 ≠ none := by
  decide

/-- C3 (amended): an unknown tier identifier is rejected with an explicit
error surfaced to the caller (the TypeError thrown at `settings.cubes`),
and no frame loop is scheduled; however the call is not a no-op: the
`running` flag has already been set to `true` (and the stats reset, the
prior scene torn down), so the driver is left flagged as running with no
loop. -/
theorem c3_unknown_tier_error (q : String) (now : ℚ) (s : DriverState)
    (hq : qualitySettings q = none) :
    (startBenchmark q now s).2 = some "TypeError: settings is undefined" ∧
    (startBenchmark q now s).1.loopChains = s.loopChains ∧
    (startBenchmark q now s).1.running = true ∧
    (startBenchmark q now s).1.frameCount = 0 := by
  simp [startBenchmark, setupScene, hq]

/-- C3 witness: the unknown-tier theorem at the concrete tier `"ultra"`. -/
theorem c3_unknown_tier_error_witness :
    qualitySettings "ultra" = none ∧
    ((startBenchmark "ultra" 0 initState).2 = some "TypeError: settings is undefined" ∧
     (startBenchmark "ultra" 0 initState).1.loopChains = initState.loopChains ∧
     (startBenchmark "ultra" 0 initState).1.running = true ∧
     (startBenchmark "ultra" 0 initState).1.frameCount = 0) :=
  ⟨by decide, c3_unknown_tier_error "ultra" 0 initState (by decide)⟩

/-! ## C4 — start while already running -/

/-- C4 counterexample: the claim "start() while Running is ignored or
surfaced as an error, so two frame loops are never scheduled concurrently"
is false: a second `startBenchmark` from a running state (one pending frame
callback) returns no error and leaves two live frame-loop chains. -/
theorem c4_counterexample :
    (startBenchmark "insane" 0 initState).1.running = true ∧
    (startBenchmark "insane" 0 (startBenchmark "insane" 0 initState).1).2 = none ∧
    1 < (startBenchmark "insane" 0 (startBenchmark "insane" 0 initState).1).1.loopChains := by
  decide

/-- C4 (amended): `startBenchmark` has no double-start guard: called with a
valid tier while already Running it neither ignores the request nor
surfaces an error — it silently resets the statistics and starts a new
synchronous `animate` chain while the previous frame callback remains
scheduled, leaving one more concurrent frame-loop chain than before. -/
theorem c4_double_start_silent (q : String) (st : TierSettings) (now : ℚ)
    (s : DriverState) (hq : qualitySettings q = some st)
    (_hrun : s.running = true) :
    (startBenchmark q now s).2 = none ∧
    (startBenchmark q now s).1.loopChains = s.loopChains + 1 ∧
    (startBenchmark q now s).1.running = true := by
  simp [startBenchmark, setupScene, hq]

/-- C4 witness: the silent-restart theorem applied to the state reached by a
first `startBenchmark "insane"` (which is running with one loop chain). -/
theorem c4_double_start_silent_witness :
    qualitySettings "insane" = some ⟨2000, 20000, 25, true, 4⟩ ∧
    (startBenchmark "insane" 0 initState).1.running = true ∧
    ((startBenchmark "insane" 5 (startBenchmark "insane" 0 initState).1).2 = none ∧
     (startBenchmark "insane" 5 (startBenchmark "insane" 0 initState).1).1.loopChains =
       (startBenchmark "insane" 0 initState).1.loopChains + 1 ∧
     (startBenchmark "insane" 5 (startBenchmark "insane" 0 initState).1).1.running = true) :=
  ⟨by decide, by decide,
   c4_double_start_silent "insane" ⟨2000, 20000, 25, true, 4⟩ 5
     (startBenchmark "insane" 0 initState).1 (by decide) (by decide)⟩

/-! ## C5 — particle boundary wrap -/

/-- C5: for every particle and every `update(deltaTime)` call, if after
integration some position component's absolute value exceeds the wrap
radius 150, then all three position components are reset to values of
absolute value at most 25 (a random point of the `±25` region), and the
particle's velocity is unchanged. -/
theorem c5_particle_wrap (rand : ℕ → ℚ)
    (hr : ∀ n, 0 ≤ rand n ∧ rand n < 1) (k : ℕ) (p v : Vec3) (dt : ℚ)
    (hw : 150 < |(integrate p v dt).x| ∨ 150 < |(integrate p v dt).y| ∨
          150 < |(integrate p v dt).z|) :
    |(updateParticle rand k p v dt).1.x| ≤ 25 ∧
    |(updateParticle rand k p v dt).1.y| ≤ 25 ∧
    |(updateParticle rand k p v dt).1.z| ≤ 25 ∧
    (updateParticle rand k p v dt).2 = v := by
  have key : ∀ n, |(rand n - 1/2) * 50| ≤ 25 := by
    intro n
    have h1 := (hr n).1
    have h2 := (hr n).2
    have habs : |rand n - 1/2| ≤ 1/2 :=
      abs_le.mpr ⟨by linarith, by linarith⟩
    calc |(rand n - 1/2) * 50| = |rand n - 1/2| * 50 := by
          rw [abs_mul]; norm_num
      _ ≤ (1/2) * 50 := by
          exact mul_le_mul_of_nonneg_right habs (by norm_num)
      _ = 25 := by norm_num
  rw [updateParticle, if_pos hw]
  exact ⟨key k, key (k+1), key (k+2), rfl⟩

/-- C5 witness: a particle integrated out of bounds is wrapped back into
the `±25` region with its velocity intact. -/
theorem c5_particle_wrap_witness :
    (∀ n, 0 ≤ (fun _ : ℕ => (0:ℚ)) n ∧ (fun _ : ℕ => (0:ℚ)) n < 1) ∧
    (150 < |(integrate ⟨200, 0, 0⟩ ⟨0, 0, 0⟩ 1).x| ∨
     150 < |(integrate ⟨200, 0, 0⟩ ⟨0, 0, 0⟩ 1).y| ∨
     150 < |(integrate ⟨200, 0, 0⟩ ⟨0, 0, 0⟩ 1).z|) ∧
    (|(updateParticle (fun _ => 0) 0 ⟨200, 0, 0⟩ ⟨0, 0, 0⟩ 1).1.x| ≤ 25 ∧
     |(updateParticle (fun _ => 0) 0 ⟨200, 0, 0⟩ ⟨0, 0, 0⟩ 1).1.y| ≤ 25 ∧
     |(updateParticle (fun _ => 0) 0 ⟨200, 0, 0⟩ ⟨0, 0, 0⟩ 1).1.z| ≤ 25 ∧
     (updateParticle (fun _ => 0) 0 ⟨200, 0, 0⟩ ⟨0, 0, 0⟩ 1).2 = ⟨0, 0, 0⟩) :=
  ⟨fun _ => ⟨le_refl 0, by norm_num⟩,
   Or.inl (by norm_num [integrate]),
   c5_particle_wrap (fun _ => 0) (fun _ => ⟨le_refl 0, by norm_num⟩) 0
     ⟨200, 0, 0⟩ ⟨0, 0, 0⟩ 1 (Or.inl (by norm_num [integrate]))⟩

/-! ## C6 — explosion life decay and retirement -/

/-- C6: each `updateExplosions` call with `deltaTime > 0` strictly decreases
every effect's life by the fixed decay rate `0.02` times `deltaTime`; an
effect whose decremented life is `≤ 0` is removed (its step yields `none`,
modelling disposal of its resources), and every effect present after the
update has positive life and is the stepped image of a pool member — so a
retired effect is absent on the next query. -/
theorem c6_explosion_life_decay (dt : ℚ) (hdt : 0 < dt)
    (pool : List ExplosionEffect) :
    (∀ e e', stepExplosion dt e = some e' →
        e'.life = e.life - dt * (2/100) ∧ e'.life < e.life ∧ 0 < e'.life) ∧
    (∀ e, e.life - dt * (2/100) ≤ 0 → stepExplosion dt e = none) ∧
    (∀ e' ∈ updateExplosions dt pool, 0 < e'.life ∧
        ∃ e ∈ pool, stepExplosion dt e = some e') := by
  have hrate : 0 < dt * (2/100) := by positivity
  have hsome : ∀ e e', stepExplosion dt e = some e' →
      e'.life = e.life - dt * (2/100) ∧ e'.life < e.life ∧ 0 < e'.life := by
    intro e e' h
    rw [stepExplosion] at h
    by_cases hl : e.life - dt * (2/100) ≤ 0
    · rw [if_pos hl] at h; exact absurd h (by simp)
    · rw [if_neg hl] at h
      have he : e'.life = e.life - dt * (2/100) := by
        cases h; rfl
      refine ⟨he, ?_, ?_⟩
      · rw [he]; linarith
      · rw [he]; linarith [not_le.mp hl]
  refine ⟨hsome, ?_, ?_⟩
  · intro e hl
    rw [stepExplosion, if_pos hl]
  · intro e' he'
    rw [updateExplosions, List.mem_filterMap] at he'
    obtain ⟨e, hmem, hstep⟩ := he'
    exact ⟨(hsome e e' hstep).2.2, e, hmem, hstep⟩

/-- C6 witness: the decay theorem at `deltaTime = 1` on a one-effect pool. -/
theorem c6_explosion_life_decay_witness :
    (0 : ℚ) < 1 ∧
    ((∀ e e', stepExplosion 1 e = some e' →
        e'.life = e.life - 1 * (2/100) ∧ e'.life < e.life ∧ 0 < e'.life) ∧
     (∀ e, e.life - 1 * (2/100) ≤ 0 → stepExplosion 1 e = none) ∧
     (∀ e' ∈ updateExplosions 1 [⟨1, []⟩], 0 < e'.life ∧
        ∃ e ∈ [(⟨1, []⟩ : ExplosionEffect)], stepExplosion 1 e = some e')) :=
  ⟨by norm_num, c6_explosion_life_decay 1 (by norm_num) [⟨1, []⟩]⟩

/-! ## C8 — classifier thresholds -/

/-- C8: the classifier computes `avgFPS = frameCount / elapsedSeconds` and
maps it through the descending thresholds `>55`, `>40`, `>25`, `>15`, else
lowest tier; in particular `classify(1800, 30)` yields exactly `60` and the
`>55` bucket's label, and sample values on both sides of every cut point
fall into the stated buckets. -/
theorem c8_classifier_thresholds :
    finishReport 1800 30 =
      { avgFPS := JSNum.num 60, performanceLabel := "🔥 BEAST MODE",
        duration := 30 } ∧
    perfLabel (JSNum.num 56) = "🔥 BEAST MODE" ∧
    perfLabel (JSNum.num 55) = "💪 HIGH-END" ∧
    perfLabel (JSNum.num 41) = "💪 HIGH-END" ∧
    perfLabel (JSNum.num 40) = "👍 MID-RANGE" ∧
    perfLabel (JSNum.num 26) = "👍 MID-RANGE" ∧
    perfLabel (JSNum.num 25) = "😅 BUDGET" ∧
    perfLabel (JSNum.num 16) = "😅 BUDGET" ∧
    perfLabel (JSNum.num 15) = "💀 TOASTER" ∧
    perfLabel (JSNum.num 10) = "💀 TOASTER" := by
  have h1800 : jsDiv (JSNum.num ((1800 : ℕ) : ℚ)) (JSNum.num 30) = JSNum.num 60 := by
    rw [jsDiv]
    norm_num
  refine ⟨?_, ?_, ?_, ?_, ?_, ?_, ?_, ?_, ?_, ?_⟩
  · rw [finishReport]
    simp only [h1800]
    norm_num [perfLabel, JSNum.ltb]
  all_goals norm_num [perfLabel, JSNum.ltb]

/-! ## C9 — populate twice does not leak -/

/-- C9: calling `setupScene` twice in a row with valid tiers, from any
scene state, leaves exactly the second tier's cube count, particle-field
size and dynamic-light count, plus the single persistent ambient light —
not the sum across both calls — because `setupScene` always begins with a
`clearScene` teardown that is safe from any state. -/
theorem c9_populate_twice_no_leak (q1 q2 : String) (st1 st2 : TierSettings)
    (sc : SceneCounts) (h1 : qualitySettings q1 = some st1)
    (h2 : qualitySettings q2 = some st2) :
    (setupScene q2 (setupScene q1 sc).1).1 =
      { cubes := st2.cubes, particleCount := some st2.particles,
        explosions := 0, dynLights := st2.lights, ambient := true } := by
  cases sc with
  | mk c pc ex dl amb =>
      cases amb <;> simp [setupScene, clearScene, lightsLen, h1, h2]

/-- C9 witness: two consecutive `setupScene "insane"` calls from the
initial (empty, no-ambient) scene end at exactly the insane tier's counts
plus the ambient light. -/
theorem c9_populate_twice_no_leak_witness :
    qualitySettings "insane" = some ⟨2000, 20000, 25, true, 4⟩ ∧
    (setupScene "insane" (setupScene "insane" initState.scene).1).1 =
      { cubes := 2000, particleCount := some 20000, explosions := 0,
        dynLights := 25, ambient := true } :=
  ⟨by decide,
   c9_populate_twice_no_leak "insane" "insane" ⟨2000, 20000, 25, true, 4⟩
     ⟨2000, 20000, 25, true, 4⟩ initState.scene (by decide) (by decide)⟩

/-! ## C10 — camera shake decay -/

/-- C10: once the shake intensity is positive, each frame multiplies it by
`0.95` with no clamping to zero, so after any number `n` of frames the
intensity equals the trigger value times `0.95 ^ n`, remains strictly
positive (hence the random camera-offset branch, whose guard is
`intensity > 0`, executes on every later frame), and strictly decreases
from each frame to the next. -/
theorem c10_shake_decay (rs : ℕ → ℚ × ℚ) (sh : CameraShake)
    (h : 0 < sh.intensity) (n : ℕ) :
    (iterShake rs n sh).intensity = sh.intensity * (95/100) ^ n ∧
    0 < (iterShake rs n sh).intensity ∧
    (iterShake rs (n+1) sh).intensity < (iterShake rs n sh).intensity := by
  have key : ∀ m, (iterShake rs m sh).intensity = sh.intensity * (95/100) ^ m ∧
      0 < (iterShake rs m sh).intensity := by
    intro m
    induction m with
    | zero => simpa [iterShake] using h
    | succ m ih =>
        have hpos := ih.2
        have hrw : iterShake rs (m+1) sh =
            (shakeStep (rs m).1 (rs m).2 (iterShake rs m sh) (0, 0)).1 := rfl
        rw [hrw, shakeStep, if_pos hpos]
        constructor
        · show (iterShake rs m sh).intensity * (95/100) =
            sh.intensity * (95/100) ^ (m+1)
          rw [ih.1, pow_succ, mul_assoc]
        · show 0 < (iterShake rs m sh).intensity * (95/100)
          exact mul_pos hpos (by norm_num)
  refine ⟨(key n).1, (key n).2, ?_⟩
  rw [(key (n+1)).1, (key n).1, pow_succ, ← mul_assoc]
  have hpos : 0 < sh.intensity * (95/100) ^ n := by
    rw [← (key n).1]; exact (key n).2
  calc sh.intensity * (95/100) ^ n * (95/100)
      < sh.intensity * (95/100) ^ n * 1 := by
        exact mul_lt_mul_of_pos_left (by norm_num) hpos
    _ = sh.intensity * (95/100) ^ n := mul_one _

/-- C10 witness: the decay theorem at the concrete trigger intensity `1/2`
(the value `cameraShake.intensity` is raised to on a stochastic explosion)
after 3 frames. -/
theorem c10_shake_decay_witness :
    (0 : ℚ) < (CameraShake.mk 0 0 (1/2)).intensity ∧
    ((iterShake (fun _ => (0, 0)) 3 ⟨0, 0, 1/2⟩).intensity =
        (CameraShake.mk 0 0 (1/2)).intensity * (95/100) ^ 3 ∧
     0 < (iterShake (fun _ => (0, 0)) 3 ⟨0, 0, 1/2⟩).intensity ∧
     (iterShake (fun _ => (0, 0)) 4 ⟨0, 0, 1/2⟩).intensity <
        (iterShake (fun _ => (0, 0)) 3 ⟨0, 0, 1/2⟩).intensity) :=
  ⟨by norm_num, c10_shake_decay (fun _ => (0, 0)) ⟨0, 0, 1/2⟩ (by norm_num) 3⟩

/-! ## C7 — cancellation reports accumulated frames/time -/

/-- While the run stays under the 30-second limit, a sequence of frame
callbacks adds one to `frameCount` per frame and leaves `totalTime` at the
value computed from the last frame's clock reading, keeping the run
running. -/
theorem runFrames_while_running (ts : List ℚ) (s : DriverState)
    (hrun : s.running = true)
    (hall : ∀ t ∈ ts, (t - s.startTime) / 1000 < 30) :
    runFrames ts s =
      { s with frameCount := s.frameCount + ts.length,
               totalTime := ts.foldl (fun _a t => (t - s.startTime) / 1000)
                 s.totalTime } := by
  induction ts generalizing s with
  | nil => simp [runFrames]
  | cons t ts ih =>
      have ht : (t - s.startTime) / 1000 < 30 := hall t (List.mem_cons_self _ _)
      have hstep : frameStep t s =
          { s with frameCount := s.frameCount + 1,
                   totalTime := (t - s.startTime) / 1000 } := by
        simp [frameStep, hrun, ht]
      have hcons : runFrames (t :: ts) s = runFrames ts (frameStep t s) := rfl
      rw [hcons, hstep,
        ih { s with frameCount := s.frameCount + 1,
                    totalTime := (t - s.startTime) / 1000 } hrun
          (fun t' ht' => hall t' (List.mem_cons_of_mem _ ht'))]
      simp [List.foldl_cons]
      omega

/-- C7: starting the benchmark, running exactly 10 frames (all under the
30-second limit) and then pressing Escape transitions the run to Finished
and produces a report computed from the accumulated stats: `frameCount = 10`
and elapsed time `(t_last - t_start) / 1000` — the accumulated time of
those 10 frames, which is strictly less than the full configured
duration. -/
theorem c7_cancel_reports_accumulated (t0 tl : ℚ) (ts : List ℚ)
    (hlen : ts.length = 9)
    (hall : ∀ t ∈ ts ++ [tl], (t - t0) / 1000 < 30) :
    (escapeKey (runFrames (ts ++ [tl])
        (startBenchmark "insane" t0 initState).1)).report =
      some (finishReport 10 ((tl - t0) / 1000)) ∧
    (escapeKey (runFrames (ts ++ [tl])
        (startBenchmark "insane" t0 initState).1)).running = false ∧
    (tl - t0) / 1000 < 30 := by
  have hs0 : (startBenchmark "insane" t0 initState).1 =
      { running := true, frameCount := 0, totalTime := 0, startTime := t0,
        scene := ⟨2000, some 20000, 0, 25, true⟩, loopChains := 1,
        report := none } := by
    rfl
  have hrunned := runFrames_while_running (ts ++ [tl])
    { running := true, frameCount := 0, totalTime := 0, startTime := t0,
      scene := ⟨2000, some 20000, 0, 25, true⟩, loopChains := 1,
      report := none } rfl hall
  have hfold : (ts ++ [tl]).foldl (fun _a t => (t - t0) / 1000) 0 =
      (tl - t0) / 1000 := by
    rw [List.foldl_append]
    rfl
  have hlen2 : (ts ++ [tl]).length = 10 := by
    simp [hlen]
  rw [hs0, hrunned, hlen2, hfold]
  refine ⟨rfl, rfl, ?_⟩
  exact hall tl (by simp)

/-- C7 witness: the cancellation theorem at start time 0 and frame times
1..10 ms. -/
theorem c7_cancel_reports_accumulated_witness :
    ([(1:ℚ), 2, 3, 4, 5, 6, 7, 8, 9].length = 9) ∧
    (∀ t ∈ [(1:ℚ), 2, 3, 4, 5, 6, 7, 8, 9] ++ [(10:ℚ)], (t - 0) / 1000 < 30) ∧
    ((escapeKey (runFrames ([(1:ℚ), 2, 3, 4, 5, 6, 7, 8, 9] ++ [(10:ℚ)])
        (startBenchmark "insane" 0 initState).1)).report =
      some (finishReport 10 (((10:ℚ) - 0) / 1000)) ∧
     (escapeKey (runFrames ([(1:ℚ), 2, 3, 4, 5, 6, 7, 8, 9] ++ [(10:ℚ)])
        (startBenchmark "insane" 0 initState).1)).running = false ∧
     ((10:ℚ) - 0) / 1000 < 30) :=
  ⟨rfl, by norm_num,
   c7_cancel_reports_accumulated 0 10 [1, 2, 3, 4, 5, 6, 7, 8, 9] rfl
     (by norm_num)⟩

end Benchmark3D
